import Mathlib

/-!
Shallow embedding of the SQL-injection dataset loading and analysis pipeline
(`src/preprocessing/data_loader.py` and `task2_dataset_loading.py`).

A pandas DataFrame is modelled column-wise: each column has a name, a dtype
and a list of cell values.  Missing entries (pandas `NaN`) are the cell
`Cell.na`.  Python floats for statistics are modelled by rationals `ℚ`;
where pandas would produce `NaN` on a degenerate empty input (mean of an
empty series, std of a single element) the model returns `0` — no theorem
below depends on those degenerate values.
-/

namespace SQLiLoader

/-- A single cell of the table: a text value, an integer value, or a
missing value (pandas `NaN`). -/
inductive Cell where
  | str (s : String)
  | int (n : Int)
  | na
deriving DecidableEq, Repr

/-- The pandas dtype of a column, as far as the source consults it
(`select_dtypes(include=['object'])` and `select_dtypes(include=[np.number])`). -/
inductive Dtype where
  | object
  | int64
  | float64
deriving DecidableEq, Repr

/-- A numeric dtype, as matched by `select_dtypes(include=[np.number])`. -/
def Dtype.isNumeric : Dtype → Bool
  | .object => false
  | .int64 => true
  | .float64 => true

/-- One column of a DataFrame. -/
structure Column where
  name : String
  dtype : Dtype
  values : List Cell
deriving DecidableEq, Repr

/-- A pandas DataFrame, column-oriented. -/
structure DataFrame where
  cols : List Column
deriving DecidableEq, Repr

/-- The column names, in order (`df.columns`). -/
def colNames (df : DataFrame) : List String :=
  df.cols.map (·.name)

/-- `len(df)`: the number of rows. -/
def nRows (df : DataFrame) : Nat :=
  match df.cols with
  | [] => 0
  | c :: _ => c.values.length

/-- Well-formedness: every column has one value per row. -/
def DataFrame.Wf (df : DataFrame) : Prop :=
  ∀ c ∈ df.cols, c.values.length = nRows df

instance (df : DataFrame) : Decidable df.Wf := by
  unfold DataFrame.Wf; infer_instance

/-- Whether a cell is missing (`pd.isnull`). -/
def isNa : Cell → Bool
  | .na => true
  | _ => false

/-- `str(cell)` / `.astype(str)`: pandas renders a missing value as the
three-character string `"nan"`. -/
def cellStr : Cell → String
  | .str s => s
  | .int n => toString n
  | .na => "nan"

/-- The values of the column named `name`, when it exists (first match,
as in pandas label lookup `df[name]`). -/
def columnValues (df : DataFrame) (name : String) : Option (List Cell) :=
  (df.cols.find? (fun c => c.name == name)).map (·.values)

/-- `df['query']`. -/
def queryValues (df : DataFrame) : Option (List Cell) :=
  columnValues df "query"

/-- `df['label']`. -/
def labelValues (df : DataFrame) : Option (List Cell) :=
  columnValues df "label"

/-- `df.rename(columns={old: new})`: renames every column called `old`. -/
def renameColumn (df : DataFrame) (old new : String) : DataFrame :=
  ⟨df.cols.map (fun c => if c.name = old then { c with name := new } else c)⟩

/-! ## Column auto-detection (`_detect_query_column`, `_detect_label_column`) -/

/-- The ordered candidate names tried by `_detect_query_column`. -/
def queryCandidates : List String :=
  ["query", "Query", "sql", "SQL", "statement", "Payload", "payload"]

/-- The ordered candidate names tried by `_detect_label_column`
(note the trailing-space candidate `"Label "`). -/
def labelCandidates : List String :=
  ["label", "Label", "target", "class", "Label "]

/-- `nunique()`: number of distinct non-missing values. -/
def nunique (vs : List Cell) : Nat :=
  ((vs.filter (fun c => !(isNa c))).dedup).length

/-- `_detect_query_column`: first candidate name present in the columns;
otherwise the first `object`-dtype column; otherwise
`ValueError("Could not detect query column")`. -/
def detectQueryColumn (df : DataFrame) : Except String String :=
  match queryCandidates.find? (fun c => (colNames df).contains c) with
  | some c => .ok c
  | none =>
      match df.cols.find? (fun c => c.dtype == Dtype.object) with
      | some col => .ok col.name
      | none => .error "Could not detect query column"

/-- `_detect_label_column`: first candidate name present in the columns;
otherwise the first numeric column with exactly two distinct values;
otherwise `ValueError("Could not detect label column")`. -/
def detectLabelColumn (df : DataFrame) : Except String String :=
  match labelCandidates.find? (fun c => (colNames df).contains c) with
  | some c => .ok c
  | none =>
      match df.cols.find? (fun c => c.dtype.isNumeric && nunique c.values == 2) with
      | some col => .ok col.name
      | none => .error "Could not detect label column"

/-! ## `load_sql_injection_dataset`

The file-existence checks precede the `try` block and raise
`FileNotFoundError` to the caller; everything from `pd.read_csv` on —
including both detection calls, which may raise `ValueError` — runs inside
`try: ... except Exception as e: print(...); return None`.  The embedding
starts from the parsed DataFrame (the result of `read_csv`). -/

/-- The body of the `try` block after `read_csv`: detect both columns on
the original frame, then rename each to its canonical name when it
differs.  An `Except.error` is a raised `ValueError`. -/
def loadBody (df : DataFrame) : Except String DataFrame :=
  match detectQueryColumn df with
  | .error e => .error e
  | .ok queryCol =>
      match detectLabelColumn df with
      | .error e => .error e
      | .ok labelCol =>
          let df1 := if queryCol ≠ "query" then renameColumn df queryCol "query" else df
          let df2 := if labelCol ≠ "label" then renameColumn df1 labelCol "label" else df1
          .ok df2

/-- `load_sql_injection_dataset` after a successful `read_csv`: the
`except Exception` handler turns ANY exception raised inside the `try`
block — detection `ValueError`s included — into a printed message and a
`None` return value. -/
def load_sql_injection_dataset (df : DataFrame) : Option DataFrame :=
  (loadBody df).toOption

/-! ## Analyzer (`dataset_overview`) -/

/-- A total order on cells used to model pandas/Python sorting of label
values (`sort_index()`, `sorted(df['label'].unique())`); integers first,
then strings lexicographically, missing last. -/
def cellLe (a b : Cell) : Bool :=
  match a, b with
  | .int m, .int n => m ≤ n
  | .int _, _ => true
  | .str _, .int _ => false
  | .str s, .str t => s ≤ t
  | .str _, .na => true
  | .na, .na => true
  | .na, _ => false

/-- `value_counts().sort_index()`: counts of each distinct non-missing
value, keyed by value in ascending order (pandas drops `NaN` entries by
default). -/
def valueCounts (vs : List Cell) : List (Cell × Nat) :=
  let nonNa := vs.filter (fun c => !(isNa c))
  let keys := nonNa.dedup.insertionSort (fun a b => cellLe a b = true)
  keys.map (fun v => (v, nonNa.count v))

/-- Maximum of a list of naturals (`Series.max()`); 0 on empty (pandas
would give `NaN` there — no theorem uses the empty case). -/
def listMax (l : List Nat) : Nat := l.foldr max 0

/-- Minimum of a nonempty list of naturals (`Series.min()`); 0 on empty. -/
def listMin : List Nat → Nat
  | [] => 0
  | a :: t => t.foldl min a

/-- `balance_ratio = label_counts.max() / label_counts.min()` as an exact
rational. -/
def balanceRatioOf (counts : List (Cell × Nat)) : ℚ :=
  ((listMax (counts.map (·.2)) : ℚ)) / ((listMin (counts.map (·.2)) : ℚ))

/-- The balance-quality tier as computed (and printed) by
`dataset_overview`; the source strings carry a trailing space. -/
def balanceQualityPrinted (r : ℚ) : String :=
  if r ≤ 12/10 then "EXCELLENT "
  else if r ≤ 2 then "GOOD "
  else if r ≤ 5 then "FAIR "
  else "POOR "

/-- The balance-quality tier as computed in `task2_dataset_loading.main`
and stored in the results document. -/
def balanceQuality (r : ℚ) : String :=
  if r ≤ 12/10 then "EXCELLENT"
  else if r ≤ 2 then "GOOD"
  else if r ≤ 5 then "FAIR"
  else "POOR"

/-- The quality description paired with the tier in `main`. -/
def qualityDescription (r : ℚ) : String :=
  if r ≤ 12/10 then "Minimal imbalance, ideal for training"
  else if r ≤ 2 then "Slight imbalance, manageable"
  else if r ≤ 5 then "Moderate imbalance, may need techniques"
  else "Severe imbalance, requires special handling"

/-- `main`'s guard `if overview_data.get('balance_ratio'):` — a missing or
zero (falsy) ratio keeps the default `"EXCELLENT"`. -/
def balanceQualityOf : Option ℚ → String
  | none => "EXCELLENT"
  | some r => if r = 0 then "EXCELLENT" else balanceQuality r

/-- `df.isnull().sum()` as a per-column association list. -/
def missingValues (df : DataFrame) : List (String × Nat) :=
  df.cols.map (fun c => (c.name, (c.values.filter isNa).length))

/-- The grand total of missing values over all columns
(`missing_values.sum()` / `sum(... .values())`). -/
def totalMissing (df : DataFrame) : Nat :=
  ((missingValues df).map (·.2)).sum

/-- `df['query'].astype(str).str.len()`: the per-row rendered string
lengths, one entry per row (missing values render as `"nan"`, length 3). -/
def queryLengthsOf (vs : List Cell) : List Nat :=
  vs.map (fun c => (cellStr c).length)

/-- `(query_lengths < 50).sum()`. -/
def shortCount (ls : List Nat) : Nat := ls.countP (fun l => decide (l < 50))

/-- `((query_lengths >= 50) & (query_lengths < 200)).sum()`. -/
def mediumCount (ls : List Nat) : Nat :=
  ls.countP (fun l => decide (50 ≤ l) && decide (l < 200))

/-- `(query_lengths >= 200).sum()`. -/
def longCount (ls : List Nat) : Nat := ls.countP (fun l => decide (200 ≤ l))

/-- `Series.mean()` over the lengths, exact; 0 on an empty series (pandas
`NaN`). -/
def meanLength (ls : List Nat) : ℚ :=
  ((ls.map (fun n => (n : ℚ))).sum) / (ls.length : ℚ)

/-- `Series.median()`: the middle element of the ascending sort, or the
average of the two middle elements for an even count; 0 on empty. -/
def medianLength (ls : List Nat) : ℚ :=
  let s := ls.insertionSort (· ≤ ·)
  let n := s.length
  if n = 0 then 0
  else if n % 2 = 1 then (s.getD (n / 2) 0 : ℚ)
  else ((s.getD (n / 2 - 1) 0 : ℚ) + (s.getD (n / 2) 0 : ℚ)) / 2

/-- The square of `Series.std()` (sample variance, `ddof = 1`), kept as an
exact rational: the source stores `std = sqrt` of this value, a fixed
function of it.  0 when fewer than two elements (pandas `NaN`). -/
def varLength (ls : List Nat) : ℚ :=
  if ls.length ≤ 1 then 0
  else ((ls.map (fun n => ((n : ℚ) - meanLength ls) ^ 2)).sum) / ((ls.length : ℚ) - 1)

/-- The query-length statistics block (`query_stats`).  `std_length_sq` is
the square of the stored standard deviation (see `varLength`). -/
structure QueryStats where
  avg_length : ℚ
  median_length : ℚ
  min_length : Nat
  max_length : Nat
  std_length_sq : ℚ
deriving DecidableEq, Repr

/-- The statistics computed from a query column (`query_stats` dict). -/
def queryStatsOf (vs : List Cell) : QueryStats :=
  let ls := queryLengthsOf vs
  { avg_length := meanLength ls
    median_length := medianLength ls
    min_length := listMin ls
    max_length := listMax ls
    std_length_sq := varLength ls }

/-- Deep memory accounting (`df.memory_usage(deep=True)`), modelled as a
deterministic function of the data: a per-object cost per cell plus the
integer index.  The exact constants stand in for CPython object sizes. -/
def cellBytes : Cell → Nat
  | .str s => 49 + s.length
  | .int _ => 8
  | .na => 8

/-- Total deep memory in bytes, index included. -/
def memoryUsageBytes (df : DataFrame) : Nat :=
  132 + 8 * nRows df + (df.cols.map (fun c => (c.values.map cellBytes).sum)).sum

/-- The overview report returned by `dataset_overview` (the dict built at
the end of the method). -/
structure Overview where
  total_records : Nat
  total_columns : Nat
  columns : List String
  class_distribution : Option (List (Cell × Nat))
  balance_ratio : Option ℚ
  missing_values : List (String × Nat)
  memory_usage_mb : ℚ
  query_stats : Option QueryStats
deriving DecidableEq, Repr

/-- `dataset_overview`: every pandas operation the method performs
(`value_counts`, `isnull`, `astype(str).str.len()`, the aggregations) reads
the frame and builds fresh series; the method never assigns into `df`.
The pair returned here is (the frame as it stands after the call, the
report). -/
def dataset_overview (df : DataFrame) : DataFrame × Overview :=
  (df,
    { total_records := nRows df
      total_columns := df.cols.length
      columns := colNames df
      class_distribution := (labelValues df).map valueCounts
      balance_ratio := (labelValues df).map (fun vs => balanceRatioOf (valueCounts vs))
      missing_values := missingValues df
      memory_usage_mb := (memoryUsageBytes df : ℚ) / (1024 * 1024)
      query_stats := (queryValues df).map queryStatsOf })

/-! ## `show_sample_queries` -/

/-- The preview shown for one sample query:
`query_str[:200] + "..." if len(query_str) > 200 else query_str`. -/
def displayQuery (s : String) : String :=
  if s.length > 200 then s.take 200 ++ "..." else s

/-! ## The driver (`task2_dataset_loading.main`)

`main` loads the frame, calls `dataset_overview`, recomputes the length
statistics, builds `complete_task2_results`, and writes two JSON files:
the overview report and the results document.  The only time-dependent
value in the run, `datetime.now()`, goes to the console banner; neither
JSON artifact contains it (the `task_info` block holding a timestamp is
commented out in the source). -/

/-- Configuration (`config.json`): the file-system paths that parametrise
a run. -/
structure Config where
  raw_data : String
  processed_data : String
  reports : String
deriving DecidableEq, Repr

/-- `sorted(df['label'].unique())`: distinct label values in ascending
order (`unique()` keeps first-appearance order; `sorted` then sorts). -/
def sortedUniqueLabels (vs : List Cell) : List Cell :=
  vs.dedup.insertionSort (fun a b => cellLe a b = true)

/-- Per-class block of `class_detailed_stats`: the rows with this label,
their count, share and length statistics. -/
structure ClassStats where
  label : Cell
  count : Nat
  percentage : ℚ
  stats : QueryStats
deriving DecidableEq, Repr

/-- The query cells of the rows whose label equals `l`
(`df[df['label'] == l]['query']`), by position. -/
def classQueries (qs ls : List Cell) (l : Cell) : List Cell :=
  ((qs.zip ls).filter (fun p => p.2 = l)).map (·.1)

/-- One entry of `class_detailed_stats` (Python rounds for display; the
model keeps the exact rationals — rounding is a fixed function of them). -/
def classStatsFor (df : DataFrame) (qs ls : List Cell) (l : Cell) : ClassStats :=
  let cq := classQueries qs ls l
  { label := l
    count := cq.length
    percentage := (cq.length : ℚ) / (nRows df : ℚ) * 100
    stats := queryStatsOf cq }

/-- `class_detailed_stats`, one block per sorted distinct label. -/
def classDetailedStats (df : DataFrame) : List ClassStats :=
  match queryValues df, labelValues df with
  | some qs, some ls => (sortedUniqueLabels ls).map (classStatsFor df qs ls)
  | _, _ => []

/-- The `complete_task2_results` document, with each JSON field modelled
by the exact value it renders (formatted display strings are fixed
renderings of fields already present and are not duplicated here). -/
structure Task2Results where
  total_records : Nat
  total_columns : Nat
  column_names : List String
  memory_usage_mb : ℚ
  class_distribution_summary : Option (List (Cell × Nat))
  detailed_stats : List ClassStats
  balance_ratio : ℚ
  balance_quality : String
  quality_assessment : String
  overall_stats : QueryStats
  short_queries_under_50 : Nat
  medium_queries_50_200 : Nat
  long_queries_over_200 : Nat
  missing_values : List (String × Nat)
  missing_values_total : Nat
  has_missing_values : Bool
  duplicate_count : Nat
  quality_status : String
  normal_queries_samples : List Cell
  malicious_queries_samples : List Cell
  random_samples : List Cell
  files_generated : List String
deriving DecidableEq, Repr

/-- The rows of the frame, for `df.duplicated()`. -/
def rowsOf (df : DataFrame) : List (List Cell) :=
  (List.range (nRows df)).map (fun i => df.cols.map (fun c => c.values.getD i Cell.na))

/-- `df.duplicated().sum()`: rows equal to some earlier row. -/
def duplicatedCount (df : DataFrame) : Nat :=
  let rs := rowsOf df
  (List.range rs.length).countP (fun i => (rs.take i).contains (rs.getD i []))

/-- `data_quality.quality_status` in the results document:
`"EXCELLENT" if sum(missing_values.values()) == 0 else "NEEDS_ATTENTION"`. -/
def qualityStatus (df : DataFrame) : String :=
  if totalMissing df = 0 then "EXCELLENT" else "NEEDS_ATTENTION"

/-- `complete_task2_results` as built by `main` from the loaded frame and
the overview; nothing here reads the clock. -/
def task2Results (cfg : Config) (df : DataFrame) : Task2Results :=
  let ov := (dataset_overview df).2
  let lengths := (queryValues df).getD [] |> queryLengthsOf
  let qs := (queryValues df).getD []
  let ls := (labelValues df).getD []
  { total_records := nRows df
    total_columns := df.cols.length
    column_names := colNames df
    memory_usage_mb := ov.memory_usage_mb
    class_distribution_summary := ov.class_distribution
    detailed_stats := classDetailedStats df
    balance_ratio := ov.balance_ratio.getD 1
    balance_quality := balanceQualityOf ov.balance_ratio
    quality_assessment :=
      match ov.balance_ratio with
      | none => "Minimal imbalance, ideal for training"
      | some r => if r = 0 then "Minimal imbalance, ideal for training" else qualityDescription r
    overall_stats := queryStatsOf ((queryValues df).getD [])
    short_queries_under_50 := shortCount lengths
    medium_queries_50_200 := mediumCount lengths
    long_queries_over_200 := longCount lengths
    missing_values := ov.missing_values
    missing_values_total := totalMissing df
    has_missing_values := decide (0 < totalMissing df)
    duplicate_count := duplicatedCount df
    quality_status := qualityStatus df
    normal_queries_samples :=
      if (colNames df).contains "label" then (classQueries qs ls (Cell.int 0)).take 3 else []
    malicious_queries_samples :=
      if (colNames df).contains "label" then (classQueries qs ls (Cell.int 1)).take 3 else []
    random_samples := qs.take 5
    files_generated := [cfg.reports ++ "/dataset_overview.json", "data/processed/task2_results.json"] }

/-- What one run of `main` produces, given the loaded frame, the
configuration, and the wall-clock instant `now` sampled by
`datetime.now()`: a console transcript (whose banner renders `now`) and
the two JSON artifacts. -/
structure RunOutput where
  console_banner : String
  overview_file : Overview
  results_file : Task2Results
deriving Repr

/-- One run of the driver on an already-loaded frame. -/
def task2Run (cfg : Config) (df : DataFrame) (now : Nat) : RunOutput :=
  { console_banner := "Execution Time: " ++ toString now
    overview_file := (dataset_overview df).2
    results_file := task2Results cfg df }

/-! Concrete frames and strings used to instantiate the theorems below. -/

/-- The four-row sample table from the specification. -/
def sampleFrame : DataFrame :=
  ⟨[⟨"query", .object,
      [.str "SELECT * FROM users", .str "' OR 1=1 --",
       .str "SELECT name FROM t", .str "'; DROP TABLE x; --"]⟩,
    ⟨"label", .int64, [.int 0, .int 1, .int 0, .int 1]⟩]⟩

/-- A frame with a single numeric column: no candidate name matches, no
object-dtype column exists, and the numeric column has three distinct
values, so both detections fail. -/
def noTextFrame : DataFrame :=
  ⟨[⟨"score", .int64, [.int 1, .int 2, .int 3]⟩]⟩

/-- A frame whose columns are named exactly "Payload" and "Label "
(trailing space). -/
def payloadFrame : DataFrame :=
  ⟨[⟨"Payload", .object, [.str "SELECT 1"]⟩,
    ⟨"Label ", .int64, [.int 1]⟩]⟩

/-- A frame whose label column contains a missing value. -/
def naLabelFrame : DataFrame :=
  ⟨[⟨"query", .object, [.str "SELECT a FROM t", .str "SELECT b FROM t"]⟩,
    ⟨"label", .float64, [.int 0, .na]⟩]⟩

/-- A frame whose query column contains a missing value at row 1. -/
def naQueryFrame : DataFrame :=
  ⟨[⟨"query", .object, [.str "SELECT a FROM t", .na]⟩,
    ⟨"label", .int64, [.int 0, .int 1]⟩]⟩

/-- A 250-character text. -/
def longText : String := String.mk (List.replicate 250 'a')

/-- A 150-character text. -/
def shortText : String := String.mk (List.replicate 150 'b')

/-! Helper lemmas shared by the claim theorems. -/

/-- A successful column lookup names an actual column of the frame. -/
theorem columnValues_eq_some {df : DataFrame} {name : String} {vs : List Cell}
    (h : columnValues df name = some vs) :
    ∃ c ∈ df.cols, c.name = name ∧ c.values = vs := by
  unfold columnValues at h
  obtain ⟨c, hf, hv⟩ := Option.map_eq_some'.mp h
  refine ⟨c, List.mem_of_find?_eq_some hf, ?_, hv⟩
  simpa using List.find?_some hf

/-- The three length buckets partition the rows: their counts add up to
the number of lengths. -/
theorem bucketCounts_sum (ls : List Nat) :
    shortCount ls + mediumCount ls + longCount ls = ls.length := by
  unfold shortCount mediumCount longCount
  induction ls with
  | nil => rfl
  | cons a t ih =>
      simp only [List.countP_cons, List.length_cons]
      by_cases h1 : a < 50
      · have h2 : a < 200 := lt_trans h1 (by norm_num)
        simp [h1, h2, Nat.not_le.mpr h1, Nat.not_le.mpr h2]
        omega
      · by_cases h2 : a < 200
        · simp [h1, h2, Nat.not_lt.mp h1, Nat.not_le.mpr h2]
          omega
        · simp [h1, h2, Nat.not_lt.mp h1, Nat.not_lt.mp h2]
          omega

/-- The per-value counts of `value_counts` add up to the number of
non-missing entries. -/
theorem valueCounts_sum (vs : List Cell) :
    ((valueCounts vs).map (·.2)).sum = (vs.filter (fun c => !(isNa c))).length := by
  unfold valueCounts
  simp only [List.map_map]
  have hperm :
      List.Perm
        (((vs.filter (fun c => !(isNa c))).dedup.insertionSort
            (fun a b => cellLe a b = true)).map
          (fun v => (vs.filter (fun c => !(isNa c))).count v))
        ((vs.filter (fun c => !(isNa c))).dedup.map
          (fun v => (vs.filter (fun c => !(isNa c))).count v)) :=
    (List.perm_insertionSort _ _).map _
  have hsum := hperm.sum_eq
  simpa [Function.comp] using
    hsum.trans (List.sum_map_count_dedup_eq_length (vs.filter (fun c => !(isNa c))))

/-- Renaming maps the column-name list pointwise. -/
theorem colNames_rename (df : DataFrame) (o n : String) :
    colNames (renameColumn df o n)
      = (colNames df).map (fun s => if s = o then n else s) := by
  unfold colNames renameColumn
  simp only [List.map_map]
  congr 1
  funext c
  by_cases hc : c.name = o <;> simp [hc]

/-! Claim theorems. -/

/-- C1 (counterexample): on a frame where neither a text column nor a
label column can be identified, `load_sql_injection_dataset` does NOT
propagate the detection `ValueError`: the error is raised inside the `try`
block (`loadBody` is an error) and the caught exception yields a null
(`none`) result. -/
theorem detect_failure_returns_none_at_noTextFrame :
    loadBody noTextFrame = Except.error "Could not detect query column" ∧
      load_sql_injection_dataset noTextFrame = none :=
  ⟨rfl, rfl⟩

/-- C1 (amended): when column detection fails, the `ValueError` raised by
the detection helpers is caught by the internal handler of
`load_sql_injection_dataset` — like every other load-time exception — and
the call returns a null result with a printed message; only the
file-existence checks before the `try` block raise to the caller. -/
theorem detect_failure_caught_internally (df : DataFrame) (e : String)
    (h : loadBody df = Except.error e) :
    load_sql_injection_dataset df = none := by
  unfold load_sql_injection_dataset
  rw [h]
  rfl

/-- Witness for C1 (amended) at the concrete frame `noTextFrame`. -/
theorem detect_failure_caught_internally_witness :
    load_sql_injection_dataset noTextFrame = none :=
  detect_failure_caught_internally noTextFrame "Could not detect query column" rfl

/-- C2: the balance-quality tier computed by the driver is a deterministic
function of the balance ratio with each upper boundary included in the
lower tier; in particular ratio 1.2 gives "EXCELLENT", 2.0 gives "GOOD",
5.0 gives "FAIR" and 5.01 gives "POOR". -/
theorem balance_tiers (r : ℚ) :
    (r ≤ 12/10 → balanceQuality r = "EXCELLENT") ∧
      (12/10 < r → r ≤ 2 → balanceQuality r = "GOOD") ∧
      (2 < r → r ≤ 5 → balanceQuality r = "FAIR") ∧
      (5 < r → balanceQuality r = "POOR") ∧
      balanceQuality (12/10) = "EXCELLENT" ∧
      balanceQuality 2 = "GOOD" ∧
      balanceQuality 5 = "FAIR" ∧
      balanceQuality (501/100) = "POOR" := by
  refine ⟨fun h => ?_, fun h1 h2 => ?_, fun h1 h2 => ?_, fun h => ?_, ?_, ?_, ?_, ?_⟩
  · simp only [balanceQuality, if_pos h]
  · simp only [balanceQuality, if_neg (not_le.mpr h1), if_pos h2]
  · simp only [balanceQuality, if_neg (not_le.mpr (by linarith : (12:ℚ)/10 < r)),
      if_neg (not_le.mpr h1), if_pos h2]
  · simp only [balanceQuality, if_neg (not_le.mpr (by linarith : (12:ℚ)/10 < r)),
      if_neg (not_le.mpr (by linarith : (2:ℚ) < r)), if_neg (not_le.mpr h)]
  · norm_num [balanceQuality]
  · norm_num [balanceQuality]
  · norm_num [balanceQuality]
  · norm_num [balanceQuality]

/-- Witness for C2 at concrete ratios in each tier. -/
theorem balance_tiers_witness :
    balanceQuality (12/10) = "EXCELLENT" ∧ balanceQuality (3/2) = "GOOD" ∧
      balanceQuality 3 = "FAIR" ∧ balanceQuality 6 = "POOR" :=
  ⟨(balance_tiers (12/10)).1 (by norm_num),
   (balance_tiers (3/2)).2.1 (by norm_num) (by norm_num),
   (balance_tiers 3).2.2.1 (by norm_num) (by norm_num),
   (balance_tiers 6).2.2.2.1 (by norm_num)⟩

/-- C6: a sample text longer than 200 characters is displayed as its
first 200 characters followed by an ellipsis marker, and a text of at most
200 characters is displayed unmodified. -/
theorem truncation_rule (s : String) :
    (200 < s.length → displayQuery s = s.take 200 ++ "...") ∧
      (s.length ≤ 200 → displayQuery s = s) := by
  constructor
  · intro h
    simp only [displayQuery, if_pos h]
  · intro h
    simp only [displayQuery, if_neg (not_lt.mpr h)]

set_option maxRecDepth 4000 in
/-- Witness for C6: a 250-character text is truncated, a 150-character
text is unchanged. -/
theorem truncation_rule_witness :
    displayQuery longText = longText.take 200 ++ "..." ∧
      displayQuery shortText = shortText :=
  ⟨(truncation_rule longText).1 (by
      have h : longText.length = 250 := by
        simp [longText, String.length]
      rw [h]; norm_num),
   (truncation_rule shortText).2 (by
      have h : shortText.length = 150 := by
        simp [shortText, String.length]
      rw [h]; norm_num)⟩

/-- C7: `dataset_overview` computes its report without mutating the
frame: the frame after the call is the frame that went in, and in
particular its column list is unchanged (no length column is attached;
the lengths live in a transient series). -/
theorem overview_no_mutation (df : DataFrame) :
    (dataset_overview df).1 = df ∧
      colNames (dataset_overview df).1 = colNames df :=
  ⟨rfl, rfl⟩

/-- C8: in the complete results document, `quality_status` is
"EXCELLENT" exactly when the total number of missing values over all
columns is zero, and "NEEDS_ATTENTION" exactly when it is nonzero. -/
theorem quality_status_iff (cfg : Config) (df : DataFrame) :
    ((task2Results cfg df).quality_status = "EXCELLENT" ↔ totalMissing df = 0) ∧
      ((task2Results cfg df).quality_status = "NEEDS_ATTENTION" ↔ totalMissing df ≠ 0) := by
  have hq : (task2Results cfg df).quality_status = qualityStatus df := rfl
  rw [hq]
  by_cases h : totalMissing df = 0 <;> simp [qualityStatus, h]

/-- C10: the two JSON artifacts of a driver run are a function of the
loaded frame and the configuration alone — the wall-clock instant feeds
only the console banner — so re-running on an unchanged input produces
identical artifacts. -/
theorem artifacts_deterministic (cfg : Config) (df : DataFrame) (t1 t2 : Nat) :
    (task2Run cfg df t1).overview_file = (task2Run cfg df t2).overview_file ∧
      (task2Run cfg df t1).results_file = (task2Run cfg df t2).results_file :=
  ⟨rfl, rfl⟩

/-- C3: on a frame whose columns are named exactly "Payload" and
"Label " (with a trailing space), the ordered case-sensitive candidate
lists select them as the text and label columns, and the loaded frame
exposes the canonical column names "query" and "label". -/
theorem payload_label_detection (df : DataFrame)
    (h : colNames df = ["Payload", "Label "]) :
    detectQueryColumn df = Except.ok "Payload" ∧
      detectLabelColumn df = Except.ok "Label " ∧
      ∃ df', loadBody df = Except.ok df' ∧ colNames df' = ["query", "label"] := by
  have hq : detectQueryColumn df = Except.ok "Payload" := by
    unfold detectQueryColumn
    rw [h]
    rfl
  have hl : detectLabelColumn df = Except.ok "Label " := by
    unfold detectLabelColumn
    rw [h]
    rfl
  refine ⟨hq, hl,
    renameColumn (renameColumn df "Payload" "query") "Label " "label", ?_, ?_⟩
  · unfold loadBody
    rw [hq, hl]
    rfl
  · rw [colNames_rename, colNames_rename, h]
    rfl

/-- Witness for C3 at the concrete frame `payloadFrame`. -/
theorem payload_label_detection_witness :
    detectQueryColumn payloadFrame = Except.ok "Payload" ∧
      detectLabelColumn payloadFrame = Except.ok "Label " ∧
      ∃ df', loadBody payloadFrame = Except.ok df' ∧
        colNames df' = ["query", "label"] :=
  payload_label_detection payloadFrame rfl

/-- C4 (counterexample): on a frame whose label column holds a missing
value, `value_counts` drops that row, so the per-label counts reported by
`dataset_overview` sum to 1 while the frame has 2 records. -/
theorem class_distribution_drops_missing :
    (dataset_overview naLabelFrame).2.class_distribution = some [(Cell.int 0, 1)] ∧
      ((((dataset_overview naLabelFrame).2.class_distribution).getD []).map (·.2)).sum = 1 ∧
      (dataset_overview naLabelFrame).2.total_records = 2 ∧
      ((((dataset_overview naLabelFrame).2.class_distribution).getD []).map (·.2)).sum
        ≠ (dataset_overview naLabelFrame).2.total_records :=
  ⟨rfl, rfl, rfl, by decide⟩

/-- C4 (amended): the per-label counts reported by `dataset_overview`
sum to the number of NON-MISSING label values; when the label column has
no missing value, that number is the total record count. -/
theorem class_distribution_sums_nonmissing (df : DataFrame) (vs : List Cell)
    (h : labelValues df = some vs) :
    ((((dataset_overview df).2.class_distribution).getD []).map (·.2)).sum
        = (vs.filter (fun c => !(isNa c))).length ∧
      ((∀ x ∈ vs, isNa x = false) → df.Wf →
        ((((dataset_overview df).2.class_distribution).getD []).map (·.2)).sum
          = (dataset_overview df).2.total_records) := by
  have hcd : (dataset_overview df).2.class_distribution = some (valueCounts vs) := by
    simp [dataset_overview, h]
  constructor
  · rw [hcd]
    simpa using valueCounts_sum vs
  · intro hnm hwf
    obtain ⟨c, hc, hname, hvals⟩ := columnValues_eq_some h
    have hfil : vs.filter (fun x => !(isNa x)) = vs :=
      List.filter_eq_self.mpr (by intro a ha; simp [hnm a ha])
    have hlen : vs.length = nRows df := by rw [← hvals]; exact hwf c hc
    have htr : (dataset_overview df).2.total_records = nRows df := rfl
    have hv := valueCounts_sum vs
    rw [hfil] at hv
    rw [hcd, htr, ← hlen]
    simpa using hv

/-- Witness for C4 (amended) at the four-row sample frame. -/
theorem class_distribution_sums_nonmissing_witness :
    ((((dataset_overview sampleFrame).2.class_distribution).getD []).map (·.2)).sum
      = (dataset_overview sampleFrame).2.total_records :=
  (class_distribution_sums_nonmissing sampleFrame
      [Cell.int 0, Cell.int 1, Cell.int 0, Cell.int 1] rfl).2
    (by decide) (by decide)

/-- C5: the three fixed-breakpoint length buckets (short < 50,
50 ≤ medium < 200, long ≥ 200) partition the rows: their counts sum to
the total record count. -/
theorem length_buckets_sum (df : DataFrame) (vs : List Cell)
    (hq : queryValues df = some vs) (hwf : df.Wf) :
    shortCount (queryLengthsOf vs) + mediumCount (queryLengthsOf vs)
        + longCount (queryLengthsOf vs) = (dataset_overview df).2.total_records := by
  obtain ⟨c, hc, hname, hvals⟩ := columnValues_eq_some hq
  have h1 := bucketCounts_sum (queryLengthsOf vs)
  have h2 : (queryLengthsOf vs).length = vs.length := by simp [queryLengthsOf]
  have h3 : vs.length = nRows df := by rw [← hvals]; exact hwf c hc
  have h4 : (dataset_overview df).2.total_records = nRows df := rfl
  rw [h1, h2, h3, h4]

/-- Witness for C5 at the four-row sample frame. -/
theorem length_buckets_sum_witness :
    shortCount (queryLengthsOf
          [Cell.str "SELECT * FROM users", Cell.str "' OR 1=1 --",
           Cell.str "SELECT name FROM t", Cell.str "'; DROP TABLE x; --"])
        + mediumCount (queryLengthsOf
          [Cell.str "SELECT * FROM users", Cell.str "' OR 1=1 --",
           Cell.str "SELECT name FROM t", Cell.str "'; DROP TABLE x; --"])
        + longCount (queryLengthsOf
          [Cell.str "SELECT * FROM users", Cell.str "' OR 1=1 --",
           Cell.str "SELECT name FROM t", Cell.str "'; DROP TABLE x; --"])
      = (dataset_overview sampleFrame).2.total_records :=
  length_buckets_sum sampleFrame _ rfl (by decide)

/-- C9: because the length series is computed over `astype(str)`, a row
with a missing text value is rendered as the 3-character string "nan": the
length series still has one entry per row, the entry for that row is 3,
the value 3 enters the population over which mean, median, min, max and
std are computed, it falls into the short (< 50) bucket, and the same row
is simultaneously counted among the missing values. -/
theorem missing_query_counted_as_nan (df : DataFrame) (vs : List Cell) (i : Nat)
    (hq : queryValues df = some vs) (hi : i < vs.length)
    (hna : vs.getD i Cell.na = Cell.na) :
    (queryLengthsOf vs).length = vs.length ∧
      (queryLengthsOf vs).getD i 0 = 3 ∧
      3 ∈ queryLengthsOf vs ∧
      1 ≤ shortCount (queryLengthsOf vs) ∧
      (∃ k, ("query", k) ∈ missingValues df ∧ 1 ≤ k) ∧
      1 ≤ totalMissing df := by
  have h0 : vs.getD i Cell.na = vs.get ⟨i, hi⟩ := by
    simp [List.getD_eq_getElem?_getD, List.getElem?_eq_getElem hi]
  have hget : vs.get ⟨i, hi⟩ = Cell.na := h0.symm.trans hna
  have hgetElem : vs[i] = Cell.na := by simpa [List.get_eq_getElem] using hget
  have hlen : (queryLengthsOf vs).length = vs.length := by simp [queryLengthsOf]
  have hmem : (3 : Nat) ∈ queryLengthsOf vs := by
    refine List.mem_map.mpr ⟨vs.get ⟨i, hi⟩, List.get_mem vs i hi, ?_⟩
    rw [hget]
    rfl
  obtain ⟨c, hc, hname, hvals⟩ := columnValues_eq_some hq
  have hnain : Cell.na ∈ vs := by rw [← hget]; exact List.get_mem vs i hi
  have hnaf : Cell.na ∈ vs.filter isNa := List.mem_filter.mpr ⟨hnain, rfl⟩
  have hcount : 1 ≤ (c.values.filter isNa).length := by
    rw [hvals]
    exact List.length_pos_of_mem hnaf
  have hmv : (c.name, (c.values.filter isNa).length) ∈ missingValues df :=
    List.mem_map.mpr ⟨c, hc, rfl⟩
  refine ⟨hlen, ?_, hmem, ?_, ?_, ?_⟩
  · simp only [queryLengthsOf, List.getD_eq_getElem?_getD, List.getElem?_map,
      List.getElem?_eq_getElem hi]
    simp only [hgetElem, cellStr, Option.map_some', Option.getD_some]
    decide
  · exact List.countP_pos_iff.mpr ⟨3, hmem, by decide⟩
  · exact ⟨(c.values.filter isNa).length, by rw [← hname]; exact hmv, hcount⟩
  · have hin : (c.values.filter isNa).length ∈ (missingValues df).map (·.2) :=
      List.mem_map.mpr ⟨_, hmv, rfl⟩
    exact le_trans hcount (List.le_sum_of_mem hin)

/-- Witness for C9 at the frame with a missing query value in row 1. -/
theorem missing_query_counted_as_nan_witness :
    1 ≤ shortCount (queryLengthsOf [Cell.str "SELECT a FROM t", Cell.na]) ∧
      1 ≤ totalMissing naQueryFrame :=
  ⟨(missing_query_counted_as_nan naQueryFrame
      [Cell.str "SELECT a FROM t", Cell.na] 1 rfl (by decide) (by decide)).2.2.2.1,
   (missing_query_counted_as_nan naQueryFrame
      [Cell.str "SELECT a FROM t", Cell.na] 1 rfl (by decide) (by decide)).2.2.2.2.2⟩

end SQLiLoader
